import Mathlib

/-!
Verification of the Adaptive Kalman–CUSUM Anomaly Detection Engine of the
precision-agriculture dashboard.  The JavaScript source (App component) is
shallowly embedded: JS numbers are modelled as exact rationals `ℚ`, the
React `useState` cells become fields of an explicit `DashState` record, and
the timer callback becomes an explicit `engineTick` transition parametrised
by the externally produced measurement, random draws and timestamp.
-/

namespace PrecisionAgri

/-- Kalman filter state, mirroring the `kalmanState` React state object. -/
structure KalmanState where
  estimate : ℚ
  errorCovariance : ℚ
  processNoise : ℚ
  measurementNoise : ℚ
  innovation : ℚ
deriving DecidableEq, Repr

/-- Initial Kalman state: `{estimate: 45, errorCovariance: 1, processNoise: 0.01,
measurementNoise: 0.5, innovation: 0}`. -/
def kalmanInit : KalmanState :=
  { estimate := 45
    errorCovariance := 1
    processNoise := 0.01
    measurementNoise := 0.5
    innovation := 0 }

/-- `kalmanFilter(measurement, state)` from the source: adaptive Kalman step. -/
def kalmanFilter (measurement : ℚ) (state : KalmanState) : KalmanState :=
  let predictedEstimate := state.estimate
  let predictedErrorCov := state.errorCovariance + state.processNoise
  let innovation := measurement - predictedEstimate
  let innovationCov := predictedErrorCov + state.measurementNoise
  let lambda := (innovation * innovation) / innovationCov
  let chiSquareThreshold : ℚ := 3.84
  let adaptiveProcessNoise :=
    if lambda > chiSquareThreshold then state.processNoise * 2.5 else 0.01
  let kalmanGain := predictedErrorCov / innovationCov
  let newEstimate := predictedEstimate + kalmanGain * innovation
  let newErrorCov := (1 - kalmanGain) * predictedErrorCov
  { estimate := newEstimate
    errorCovariance := newErrorCov
    processNoise := adaptiveProcessNoise
    measurementNoise := state.measurementNoise
    innovation := innovation }

/-- The intermediate `predictedErrorCov` of a Kalman step (source line 50). -/
def kalmanPredErrorCov (state : KalmanState) : ℚ :=
  state.errorCovariance + state.processNoise

/-- The intermediate `innovation` of a Kalman step (source line 53). -/
def kalmanInnovation (measurement : ℚ) (state : KalmanState) : ℚ :=
  measurement - state.estimate

/-- The intermediate `innovationCov` of a Kalman step (source line 54). -/
def kalmanInnovationCov (state : KalmanState) : ℚ :=
  kalmanPredErrorCov state + state.measurementNoise

/-- The intermediate surprise score `lambda` of a Kalman step (source line 57). -/
def kalmanLambda (measurement : ℚ) (state : KalmanState) : ℚ :=
  kalmanInnovation measurement state * kalmanInnovation measurement state /
    kalmanInnovationCov state

/-- The intermediate `kalmanGain` of a Kalman step (source line 65). -/
def kalmanGainOf (state : KalmanState) : ℚ :=
  kalmanPredErrorCov state / kalmanInnovationCov state

/-- CUSUM accumulator state, mirroring the `cumsum` React state object. -/
structure CumSumState where
  positive : ℚ
  negative : ℚ
deriving DecidableEq, Repr

/-- Anomaly direction reported by the CUSUM detector (`type` field). -/
inductive Direction where
  | high
  | low
  | normal
deriving DecidableEq, Repr

/-- Result record returned by `detectAnomaly`. -/
structure AnomalyResult where
  cumsum : CumSumState
  isAnomaly : Bool
  type : Direction
deriving DecidableEq, Repr

/-- `detectAnomaly(innovation, currentCumsum)` from the source: two-sided CUSUM. -/
def detectAnomaly (innovation : ℚ) (currentCumsum : CumSumState) : AnomalyResult :=
  let delta : ℚ := 0.5
  let threshold : ℚ := 5
  let sPlus := max 0 (currentCumsum.positive + innovation - delta)
  let sMinus := min 0 (currentCumsum.negative + innovation + delta)
  let isAnomaly : Bool := decide (sPlus > threshold) || decide (sMinus < -threshold)
  { cumsum := { positive := sPlus, negative := sMinus }
    isAnomaly := isAnomaly
    type := if sPlus > threshold then .high
            else if sMinus < -threshold then .low
            else .normal }

/-- Classification outcome of `getParameterStatus`. -/
inductive Status where
  | optimal
  | warning
  | critical
  | unknown
deriving DecidableEq, Repr

/-- One entry of the `ranges` table: optimal and warning bands. -/
structure Ranges where
  optLo : ℚ
  optHi : ℚ
  warnLo : ℚ
  warnHi : ℚ
deriving DecidableEq, Repr

/-- Outcome of the JS property read `ranges[parameter]` on the object
literal of source lines 103-110: an own data property (one of the six
configured band records), a truthy member inherited from
`Object.prototype` (a function, or the prototype object for `__proto__`),
or `undefined`. -/
inductive RangesLookup where
  | own (r : Ranges)
  | inherited
  | notFound
deriving DecidableEq, Repr

/-- The standard members of `Object.prototype`: property reads on a plain
object literal find these through the prototype chain, and each of them is
truthy (a function, or the prototype object itself for `__proto__`). -/
def objectPrototypeKeys : List String :=
  ["constructor", "hasOwnProperty", "isPrototypeOf", "propertyIsEnumerable",
   "toLocaleString", "toString", "valueOf", "__proto__", "__defineGetter__",
   "__defineSetter__", "__lookupGetter__", "__lookupSetter__"]

/-- `ranges[parameter]` from the source: the six own properties; for any
other key the lookup walks the prototype chain, so the `Object.prototype`
members come back as truthy inherited values, and only the remaining keys
give `undefined`. -/
def ranges (parameter : String) : RangesLookup :=
  if parameter = "moisture" then .own ⟨40, 50, 35, 55⟩
  else if parameter = "ph" then .own ⟨6.5, 7.0, 6.0, 7.5⟩
  else if parameter = "ec" then .own ⟨1.0, 1.5, 0.8, 1.8⟩
  else if parameter = "nitrogen" then .own ⟨30, 40, 25, 45⟩
  else if parameter = "phosphorus" then .own ⟨15, 25, 10, 30⟩
  else if parameter = "potassium" then .own ⟨20, 30, 15, 35⟩
  else if parameter ∈ objectPrototypeKeys then .inherited
  else .notFound

/-- Result of a call to `getParameterStatus`: a returned status, or the JS
`TypeError` thrown when `range.optimal[0]` is read with `range` a truthy
non-band value (its `.optimal` is `undefined`, and indexing that throws). -/
inductive ClassifyResult where
  | ok (s : Status)
  | typeError
deriving DecidableEq, Repr

/-- `getParameterStatus(value, parameter)` from the source.  The guard
`if (!range) return 'unknown'` fires only when the lookup gave `undefined`
(falsy); a truthy inherited `Object.prototype` member passes the guard and
the subsequent `range.optimal[0]` access throws a `TypeError`. -/
def getParameterStatus (value : ℚ) (parameter : String) : ClassifyResult :=
  match ranges parameter with
  | .notFound => .ok .unknown
  | .inherited => .typeError
  | .own range =>
    .ok (if range.optLo ≤ value ∧ value ≤ range.optHi then .optimal
         else if range.warnLo ≤ value ∧ value ≤ range.warnHi then .warning
         else .critical)

/-- JS `Math.round`: round half toward positive infinity. -/
def jsRound (x : ℚ) : ℚ := (⌊x + 1/2⌋ : ℤ)

/-- `Math.round(x * 10) / 10`: round to one decimal place. -/
def roundTenth (x : ℚ) : ℚ := jsRound (x * 10) / 10

/-- JS `array.slice(-n)`: the last `n` elements (the whole array if shorter). -/
def jsSliceLast (n : ℕ) (l : List α) : List α := l.drop (l.length - n)

/-- The `setSensorData` updater (source lines 151-161): append the new entry
and keep the last 25 (`newData.slice(-25)`). -/
def sensorDataStep (prev : List α) (x : α) : List α := jsSliceLast 25 (prev ++ [x])

/-- The reading history produced by a sequence of ticks starting from an
empty history: fold the `setSensorData` updater over the entries. -/
def sensorDataAfter (xs : List α) : List α := xs.foldl sensorDataStep []

/-- The `setAlerts` updater (source line 176): prepend the new alert and
keep the first 8 (`[alertMsg, ...prev].slice(0, 8)`). -/
def alertsStep (prev : List α) (a : α) : List α := (a :: prev).take 8

/-- The alert list produced by a sequence of anomalies starting from an
empty list: fold the `setAlerts` updater over the alerts. -/
def alertsAfter (as : List α) : List α := as.foldl alertsStep []

/-- The `systemStats` React state object. -/
structure SystemStats where
  totalReadings : ℕ
  anomaliesDetected : ℕ
  dataAccuracy : ℚ
deriving DecidableEq, Repr

/-- One entry of the `sensorData` history (source lines 152-159). -/
structure SensorEntry where
  time : String
  raw : ℚ
  filtered : ℚ
  ph : ℚ
  ec : ℚ
  nitrogen : ℚ
deriving DecidableEq, Repr

/-- An alert record (source lines 165-174). -/
structure Alert where
  id : ℕ
  type : String
  message : String
  timestamp : String
  parameter : String
  value : ℚ
deriving DecidableEq, Repr

/-- The `currentValues` React state object. -/
structure CurrentValues where
  moisture : ℚ
  ph : ℚ
  ec : ℚ
  nitrogen : ℚ
  potassium : ℚ
  phosphorus : ℚ
deriving DecidableEq, Repr

/-- The complete dashboard state: every `useState` cell of the component. -/
structure DashState where
  sensorData : List SensorEntry
  currentValues : CurrentValues
  alerts : List Alert
  isRunning : Bool
  cumsum : CumSumState
  systemStats : SystemStats
  kalmanState : KalmanState
deriving DecidableEq, Repr

/-- The initial dashboard state (all `useState` initialisers). -/
def initState : DashState :=
  { sensorData := []
    currentValues := { moisture := 45, ph := 6.8, ec := 1.2, nitrogen := 35,
                       potassium := 25, phosphorus := 18 }
    alerts := []
    isRunning := false
    cumsum := { positive := 0, negative := 0 }
    systemStats := { totalReadings := 0, anomaliesDetected := 0, dataAccuracy := 0 }
    kalmanState := kalmanInit }

/-- Environment of one tick: everything the timer callback obtains from
outside the engine state — the wall-clock timestamp, `Date.now()` for the
alert id, the generated raw moisture measurement, and the `Math.random()`
draws used for the auxiliary (ph/ec/NPK) channels. -/
structure TickEnv where
  timestamp : String
  idNow : ℕ
  rawMoisture : ℚ
  phRand : ℚ
  ecRand : ℚ
  nRand : ℚ
  pRand : ℚ
  kRand : ℚ
deriving Repr

/-- One firing of the monitoring loop (source lines 126-190).  The interval
only exists while `isRunning`, so a tick on a non-running state is a no-op. -/
def engineTick (env : TickEnv) (s : DashState) : DashState :=
  if s.isRunning = false then s else
  let newKalmanState := kalmanFilter env.rawMoisture s.kalmanState
  let anomalyResult := detectAnomaly newKalmanState.innovation s.cumsum
  let newValues : CurrentValues :=
    { moisture := roundTenth newKalmanState.estimate
      ph := roundTenth (6.8 + (env.phRand - 0.5) * 0.4)
      ec := roundTenth (1.2 + (env.ecRand - 0.5) * 0.2)
      nitrogen := jsRound (35 + (env.nRand - 0.5) * 8)
      phosphorus := jsRound (18 + (env.pRand - 0.5) * 6)
      potassium := jsRound (25 + (env.kRand - 0.5) * 6) }
  let newEntry : SensorEntry :=
    { time := env.timestamp
      raw := roundTenth env.rawMoisture
      filtered := newValues.moisture
      ph := newValues.ph
      ec := newValues.ec
      nitrogen := newValues.nitrogen }
  let newSensorData := sensorDataStep s.sensorData newEntry
  let alertMsg : Alert :=
    { id := env.idNow
      type := if anomalyResult.type = .high then "warning" else "critical"
      message := if anomalyResult.type = .high
        then "High moisture detected - Check irrigation system"
        else "Low moisture detected - Consider irrigation"
      timestamp := env.timestamp
      parameter := "Soil Moisture"
      value := newValues.moisture }
  let newAlerts := if anomalyResult.isAnomaly
    then alertsStep s.alerts alertMsg else s.alerts
  let statsAfterAnomaly :=
    if anomalyResult.isAnomaly
    then { s.systemStats with anomaliesDetected := s.systemStats.anomaliesDetected + 1 }
    else s.systemStats
  let newStats : SystemStats :=
    { statsAfterAnomaly with
      totalReadings := statsAfterAnomaly.totalReadings + 1
      dataAccuracy := min 100 (statsAfterAnomaly.dataAccuracy + 0.1) }
  { sensorData := newSensorData
    currentValues := newValues
    alerts := newAlerts
    isRunning := s.isRunning
    cumsum := anomalyResult.cumsum
    systemStats := newStats
    kalmanState := newKalmanState }

/-- `clearAlerts()` from the source (lines 198-200): empties the alert list. -/
def clearAlerts (s : DashState) : DashState :=
  { s with alerts := [] }

/-- `resetSystem()` from the source (lines 205-214): clears `sensorData`,
`alerts`, `cumsum` and `systemStats`.  (It does not touch `kalmanState`.) -/
def resetSystem (s : DashState) : DashState :=
  { s with
    sensorData := []
    alerts := []
    cumsum := { positive := 0, negative := 0 }
    systemStats := { totalReadings := 0, anomaliesDetected := 0, dataAccuracy := 0 } }

/-- The start/stop button: `setIsRunning(!isRunning)`. -/
def toggleRunning (s : DashState) : DashState :=
  { s with isRunning := !s.isRunning }

/-- Dashboard states reachable from the initial state by any sequence of
user actions and ticks. -/
inductive Reachable : DashState → Prop where
  | init : Reachable initState
  | tick (env : TickEnv) {s : DashState} : Reachable s → Reachable (engineTick env s)
  | clear {s : DashState} : Reachable s → Reachable (clearAlerts s)
  | reset {s : DashState} : Reachable s → Reachable (resetSystem s)
  | toggle {s : DashState} : Reachable s → Reachable (toggleRunning s)

/-- Kalman states reachable from `kalmanInit` by any sequence of filter steps. -/
inductive KReachable : KalmanState → Prop where
  | init : KReachable kalmanInit
  | step (m : ℚ) {s : KalmanState} : KReachable s → KReachable (kalmanFilter m s)

/-- Kalman step as the spec words it (§4.1): reference definition written
from the spec's algorithm description, to be compared with `kalmanFilter`. -/
def kalmanSpecStep (m : ℚ) (s : KalmanState) : KalmanState :=
  let predictedErrorCov := s.errorCovariance + s.processNoise
  let innovation := m - s.estimate
  let innovationCov := predictedErrorCov + s.measurementNoise
  let processNoise' :=
    if innovation ^ 2 / innovationCov > 3.84 then s.processNoise * 2.5 else 0.01
  let kalmanGain := predictedErrorCov / innovationCov
  { estimate := s.estimate + kalmanGain * innovation
    errorCovariance := (1 - kalmanGain) * predictedErrorCov
    processNoise := processNoise'
    measurementNoise := s.measurementNoise
    innovation := innovation }

/-- C3: for every measurement and prior state, one `kalmanFilter` step
returns exactly the state computed by the spec's algorithm (predict,
innovation, adaptive process-noise test against 3.84, gain, update), with
`measurementNoise` unchanged. -/
theorem C3_kalman_step_matches_spec (m : ℚ) (s : KalmanState) :
    kalmanFilter m s = kalmanSpecStep m s := by
  simp only [kalmanFilter, kalmanSpecStep, pow_two]

/-- C4: one CUSUM step returns `positive = max 0 (positive + x - 0.5)` and
`negative = min 0 (negative + x + 0.5)`, reports an anomaly iff the new
positive sum exceeds 5 or the new negative sum is below -5, and the
direction is `high` / `low` / `normal` accordingly. -/
theorem C4_cusum_step_matches_spec (x : ℚ) (st : CumSumState) :
    (detectAnomaly x st).cumsum.positive = max 0 (st.positive + x - 0.5) ∧
    (detectAnomaly x st).cumsum.negative = min 0 (st.negative + x + 0.5) ∧
    ((detectAnomaly x st).isAnomaly = true ↔
      (detectAnomaly x st).cumsum.positive > 5 ∨
      (detectAnomaly x st).cumsum.negative < -5) ∧
    (detectAnomaly x st).type =
      (if (detectAnomaly x st).cumsum.positive > 5 then Direction.high
       else if (detectAnomaly x st).cumsum.negative < -5 then Direction.low
       else Direction.normal) := by
  refine ⟨rfl, rfl, ?_, rfl⟩
  simp [detectAnomaly]

/-- Counterexample to C5: the key `"toString"` is outside the six
configured parameters, yet the classifier does not return `unknown` there —
the object-literal lookup finds the truthy inherited
`Object.prototype.toString`, the `!range` guard does not fire, and
`range.optimal[0]` throws a `TypeError`. -/
theorem C5_classifier_counterexample :
    "toString" ≠ "moisture" ∧ "toString" ≠ "ph" ∧ "toString" ≠ "ec" ∧
    "toString" ≠ "nitrogen" ∧ "toString" ≠ "phosphorus" ∧
    "toString" ≠ "potassium" ∧
    getParameterStatus 1 "toString" ≠ ClassifyResult.ok Status.unknown ∧
    getParameterStatus 1 "toString" = ClassifyResult.typeError := by
  refine ⟨by simp, by simp, by simp, by simp, by simp, by simp, ?_, ?_⟩ <;>
    simp [getParameterStatus, ranges, objectPrototypeKeys]

/-- C5 amended: for the six configured parameters `getParameterStatus`
returns `optimal` when the value lies inclusively in the optimal band, else
`warning` when it lies in the warning band, else `critical`; a key that is
neither configured nor an `Object.prototype` member returns `unknown`; but a
prototype-inherited key (such as `"toString"`) throws a `TypeError` instead
of returning `unknown`.  The moisture examples 40 / 36 / 10 classify as
optimal / warning / critical. -/
theorem C5_classifier_amended :
    (∀ (v : ℚ) (k : String) (r : Ranges), ranges k = .own r →
      getParameterStatus v k =
        .ok (if r.optLo ≤ v ∧ v ≤ r.optHi then Status.optimal
             else if r.warnLo ≤ v ∧ v ≤ r.warnHi then Status.warning
             else Status.critical)) ∧
    (∀ (v : ℚ) (k : String), ranges k = .inherited →
      getParameterStatus v k = .typeError) ∧
    (∀ (v : ℚ) (k : String), ranges k = .notFound →
      getParameterStatus v k = .ok .unknown) ∧
    (∀ k : String, k ≠ "moisture" → k ≠ "ph" → k ≠ "ec" → k ≠ "nitrogen" →
      k ≠ "phosphorus" → k ≠ "potassium" → k ∉ objectPrototypeKeys →
      ranges k = .notFound) ∧
    getParameterStatus 40 "moisture" = .ok .optimal ∧
    getParameterStatus 36 "moisture" = .ok .warning ∧
    getParameterStatus 10 "moisture" = .ok .critical := by
  refine ⟨?_, ?_, ?_, ?_, ?_, ?_, ?_⟩
  · intro v k r h
    simp [getParameterStatus, h]
  · intro v k h
    simp [getParameterStatus, h]
  · intro v k h
    simp [getParameterStatus, h]
  · intro k h1 h2 h3 h4 h5 h6 h7
    simp [ranges, h1, h2, h3, h4, h5, h6, h7]
  · norm_num [getParameterStatus, ranges]
  · norm_num [getParameterStatus, ranges]
  · norm_num [getParameterStatus, ranges]

/-- Witness for the amended C5 at concrete inputs: value 7.2 for the
configured key "ph", the prototype-inherited key "toString", and the
entirely absent keys "zz" and "foo". -/
theorem C5_classifier_amended_witness :
    (ranges "ph" = .own ⟨6.5, 7.0, 6.0, 7.5⟩ ∧
      getParameterStatus 7.2 "ph" =
        .ok (if (6.5 : ℚ) ≤ 7.2 ∧ (7.2 : ℚ) ≤ 7.0 then Status.optimal
             else if (6.0 : ℚ) ≤ 7.2 ∧ (7.2 : ℚ) ≤ 7.5 then Status.warning
             else Status.critical)) ∧
    (ranges "valueOf" = .inherited ∧
      getParameterStatus 1 "valueOf" = .typeError) ∧
    (ranges "zz" = .notFound ∧ getParameterStatus 1 "zz" = .ok .unknown) ∧
    ranges "foo" = .notFound :=
  ⟨⟨by simp [ranges],
    C5_classifier_amended.1 7.2 "ph" ⟨6.5, 7.0, 6.0, 7.5⟩ (by simp [ranges])⟩,
   ⟨by simp [ranges, objectPrototypeKeys],
    C5_classifier_amended.2.1 1 "valueOf" (by simp [ranges, objectPrototypeKeys])⟩,
   ⟨by simp [ranges, objectPrototypeKeys],
    C5_classifier_amended.2.2.1 1 "zz" (by simp [ranges, objectPrototypeKeys])⟩,
   C5_classifier_amended.2.2.2.1 "foo" (by simp) (by simp) (by simp) (by simp)
     (by simp) (by simp) (by simp [objectPrototypeKeys])⟩

/-- C8: the end-to-end scenario.  From the initial state, measurement 70
gives `predictedErrorCov = 1.01`, `innovation = 25`, `innovationCov = 1.51`,
`lambda ≈ 413.9 > 3.84` hence `processNoise = 0.025`, `kalmanGain ≈ 0.669`,
`estimate ≈ 61.7`, `errorCovariance ≈ 0.335`; feeding the innovation 25 into
a fresh CUSUM state gives `positive = 24.5 > 5`, an anomaly of direction
`high`. -/
theorem C8_end_to_end_scenario :
    kalmanPredErrorCov kalmanInit = 1.01 ∧
    kalmanInnovation 70 kalmanInit = 25 ∧
    kalmanInnovationCov kalmanInit = 1.51 ∧
    |kalmanLambda 70 kalmanInit - 413.9| < 0.01 ∧
    kalmanLambda 70 kalmanInit > 3.84 ∧
    (kalmanFilter 70 kalmanInit).processNoise = 0.025 ∧
    |kalmanGainOf kalmanInit - 0.669| < 0.001 ∧
    |(kalmanFilter 70 kalmanInit).estimate - 61.7| < 0.05 ∧
    |(kalmanFilter 70 kalmanInit).errorCovariance - 0.335| < 0.001 ∧
    (kalmanFilter 70 kalmanInit).innovation = 25 ∧
    (detectAnomaly 25 ⟨0, 0⟩).cumsum.positive = 24.5 ∧
    (24.5 : ℚ) > 5 ∧
    (detectAnomaly 25 ⟨0, 0⟩).isAnomaly = true ∧
    (detectAnomaly 25 ⟨0, 0⟩).type = Direction.high := by
  norm_num [kalmanFilter, kalmanInit, kalmanPredErrorCov, kalmanInnovation,
    kalmanInnovationCov, kalmanLambda, kalmanGainOf, detectAnomaly, abs_lt]

/-- C10: `clearAlerts` empties the alert list and leaves every other piece
of state (Kalman state, CUSUM state, history, counters, running flag,
current values) unchanged. -/
theorem C10_clear_alerts_frame (s : DashState) :
    (clearAlerts s).alerts = [] ∧
    (clearAlerts s).kalmanState = s.kalmanState ∧
    (clearAlerts s).cumsum = s.cumsum ∧
    (clearAlerts s).sensorData = s.sensorData ∧
    (clearAlerts s).systemStats.totalReadings = s.systemStats.totalReadings ∧
    (clearAlerts s).systemStats.anomaliesDetected = s.systemStats.anomaliesDetected ∧
    (clearAlerts s).systemStats.dataAccuracy = s.systemStats.dataAccuracy ∧
    (clearAlerts s).isRunning = s.isRunning ∧
    (clearAlerts s).currentValues = s.currentValues := by
  refine ⟨rfl, rfl, rfl, rfl, rfl, rfl, rfl, rfl, rfl⟩

/-- A concrete tick environment delivering the measurement 70 (all random
draws at their midpoint 0.5). -/
def env70 : TickEnv :=
  { timestamp := "t", idNow := 0, rawMoisture := 70,
    phRand := 0.5, ecRand := 0.5, nRand := 0.5, pRand := 0.5, kRand := 0.5 }

/-- Counterexample to C1: the state reached by starting the monitor and
ticking once with measurement 70 is reachable, yet after `resetSystem` its
`kalmanState` is not the initial default (the source's `resetSystem` never
touches `kalmanState`). -/
theorem C1_reset_counterexample :
    Reachable (engineTick env70 (toggleRunning initState)) ∧
    (resetSystem (engineTick env70 (toggleRunning initState))).kalmanState ≠ kalmanInit := by
  refine ⟨Reachable.tick env70 (Reachable.toggle Reachable.init), ?_⟩
  intro h
  have he := congrArg KalmanState.estimate h
  simp [resetSystem, engineTick, toggleRunning, initState, kalmanFilter,
    kalmanInit, env70] at he
  norm_num at he

/-- C1 amended: for every state, `resetSystem` empties the reading history
and the alert list, resets `CumSumState` to `{0,0}` and zeroes
`totalReadings`, `anomaliesDetected` and `dataAccuracy`, but leaves
`kalmanState` (and the running flag and current values) unchanged — it does
not restore the Kalman defaults. -/
theorem C1_reset_amended (s : DashState) :
    (resetSystem s).sensorData = [] ∧
    (resetSystem s).alerts = [] ∧
    (resetSystem s).cumsum = { positive := 0, negative := 0 } ∧
    (resetSystem s).systemStats.totalReadings = 0 ∧
    (resetSystem s).systemStats.anomaliesDetected = 0 ∧
    (resetSystem s).systemStats.dataAccuracy = 0 ∧
    (resetSystem s).kalmanState = s.kalmanState ∧
    (resetSystem s).isRunning = s.isRunning := by
  refine ⟨rfl, rfl, rfl, rfl, rfl, rfl, rfl, rfl⟩

/-- Counterexample to C2: after the two filter steps with measurements 70
and then 200 (two consecutive statistically surprising innovations), the
reachable `processNoise` is 0.0625 = 0.01 × 2.5², neither 0.01 nor 0.025:
the source multiplies the *current* process noise by 2.5, compounding it. -/
theorem C2_process_noise_counterexample :
    KReachable (kalmanFilter 200 (kalmanFilter 70 kalmanInit)) ∧
    (kalmanFilter 200 (kalmanFilter 70 kalmanInit)).processNoise ≠ 0.01 ∧
    (kalmanFilter 200 (kalmanFilter 70 kalmanInit)).processNoise ≠ 0.01 * 2.5 := by
  refine ⟨KReachable.step 200 (KReachable.step 70 KReachable.init), ?_, ?_⟩ <;>
    norm_num [kalmanFilter, kalmanInit]

/-- C2 amended: in every state reachable by filter steps, `processNoise` is
of the form 0.01 × 2.5^k for some k : ℕ (each step either resets it to 0.01
or multiplies the current value by 2.5, so consecutive surprises compound). -/
theorem C2_process_noise_amended (s : KalmanState) (h : KReachable s) :
    ∃ k : ℕ, s.processNoise = 0.01 * 2.5 ^ k := by
  induction h with
  | init => exact ⟨0, by norm_num [kalmanInit]⟩
  | step m _ ih =>
    obtain ⟨k, hk⟩ := ih
    simp only [kalmanFilter]
    split
    · exact ⟨k + 1, by rw [hk]; ring⟩
    · exact ⟨0, by norm_num⟩

/-- Witness for the amended C2 at the initial state. -/
theorem C2_process_noise_amended_witness :
    KReachable kalmanInit ∧ ∃ k : ℕ, kalmanInit.processNoise = 0.01 * 2.5 ^ k :=
  ⟨KReachable.init, C2_process_noise_amended kalmanInit KReachable.init⟩

/-- One Kalman step keeps `errorCovariance` nonnegative and both noise
parameters positive; moreover its `innovationCov` is positive. -/
theorem kalman_step_preserves_inv (m : ℚ) (s : KalmanState)
    (hec : 0 ≤ s.errorCovariance) (hq : 0 < s.processNoise)
    (hr : 0 < s.measurementNoise) :
    0 < kalmanInnovationCov s ∧
    0 ≤ (kalmanFilter m s).errorCovariance ∧
    0 < (kalmanFilter m s).processNoise ∧
    0 < (kalmanFilter m s).measurementNoise := by
  have hpec : 0 < s.errorCovariance + s.processNoise := by linarith
  have hic : 0 < s.errorCovariance + s.processNoise + s.measurementNoise := by linarith
  refine ⟨?_, ?_, ?_, ?_⟩
  · simpa [kalmanInnovationCov, kalmanPredErrorCov] using hic
  · show 0 ≤ (1 - (s.errorCovariance + s.processNoise) /
        (s.errorCovariance + s.processNoise + s.measurementNoise)) *
        (s.errorCovariance + s.processNoise)
    have hle : (s.errorCovariance + s.processNoise) /
        (s.errorCovariance + s.processNoise + s.measurementNoise) ≤ 1 := by
      rw [div_le_one hic]; linarith
    have h1 : 0 ≤ 1 - (s.errorCovariance + s.processNoise) /
        (s.errorCovariance + s.processNoise + s.measurementNoise) := by linarith
    exact mul_nonneg h1 hpec.le
  · show 0 < (if _ > (3.84 : ℚ) then s.processNoise * 2.5 else 0.01)
    split
    · positivity
    · norm_num
  · exact hr

/-- C7: with `errorCovariance ≥ 0`, `processNoise > 0` and
`measurementNoise > 0`, one Kalman step has a positive `innovationCov` (so
the divisions computing lambda and the gain are well-defined) and returns a
nonnegative `errorCovariance`; hence `errorCovariance ≥ 0` holds in every
state reachable from the initial one. -/
theorem C7_error_covariance_safety :
    (∀ (m : ℚ) (s : KalmanState), 0 ≤ s.errorCovariance → 0 < s.processNoise →
      0 < s.measurementNoise →
      0 < kalmanInnovationCov s ∧ 0 ≤ (kalmanFilter m s).errorCovariance) ∧
    (∀ s : KalmanState, KReachable s → 0 ≤ s.errorCovariance) := by
  constructor
  · intro m s hec hq hr
    obtain ⟨h1, h2, _, _⟩ := kalman_step_preserves_inv m s hec hq hr
    exact ⟨h1, h2⟩
  · intro s h
    have : 0 ≤ s.errorCovariance ∧ 0 < s.processNoise ∧ 0 < s.measurementNoise := by
      induction h with
      | init => refine ⟨?_, ?_, ?_⟩ <;> norm_num [kalmanInit]
      | step m _ ih =>
        obtain ⟨hec, hq, hr⟩ := ih
        obtain ⟨_, h2, h3, h4⟩ := kalman_step_preserves_inv m _ hec hq hr
        exact ⟨h2, h3, h4⟩
    exact this.1

/-- Witness for C7 at the initial state with measurement 70. -/
theorem C7_error_covariance_safety_witness :
    (0 ≤ kalmanInit.errorCovariance ∧ 0 < kalmanInit.processNoise ∧
      0 < kalmanInit.measurementNoise ∧ KReachable kalmanInit) ∧
    (0 < kalmanInnovationCov kalmanInit ∧
      0 ≤ (kalmanFilter 70 kalmanInit).errorCovariance) ∧
    0 ≤ kalmanInit.errorCovariance :=
  ⟨⟨by norm_num [kalmanInit], by norm_num [kalmanInit], by norm_num [kalmanInit],
     KReachable.init⟩,
   C7_error_covariance_safety.1 70 kalmanInit (by norm_num [kalmanInit])
     (by norm_num [kalmanInit]) (by norm_num [kalmanInit]),
   C7_error_covariance_safety.2 kalmanInit KReachable.init⟩

/-- Re-truncating after an append: keeping the last `n` of an already
truncated list extended by one element is keeping the last `n` of the full
extended list. -/
theorem jsSliceLast_append_one (n : ℕ) (l : List α) (x : α) :
    jsSliceLast n (jsSliceLast n l ++ [x]) = jsSliceLast n (l ++ [x]) := by
  unfold jsSliceLast
  rcases le_or_lt l.length n with h | h
  · rw [Nat.sub_eq_zero_of_le h, List.drop_zero]
  · have hlen : (l.drop (l.length - n)).length = n := by
      rw [List.length_drop]; omega
    rw [List.length_append, List.length_append, hlen]
    simp only [List.length_cons, List.length_nil]
    rw [List.drop_append_eq_append_drop, List.drop_append_eq_append_drop,
      List.drop_drop, hlen]
    have e1 : l.length - n + (n + (0 + 1) - n) = l.length + (0 + 1) - n := by omega
    have e2 : n + (0 + 1) - n - n = l.length + (0 + 1) - n - l.length := by omega
    rw [e1, e2]

/-- The history fold equals `slice(-25)` of all entries. -/
theorem sensorDataAfter_eq (xs : List α) :
    sensorDataAfter xs = jsSliceLast 25 xs := by
  induction xs using List.reverseRecOn with
  | nil => rfl
  | append_singleton l x ih =>
    unfold sensorDataAfter at ih ⊢
    rw [List.foldl_append, List.foldl_cons, List.foldl_nil, ih]
    exact jsSliceLast_append_one 25 l x

/-- The alert fold equals the first 8 of the reversed (newest-first) alerts. -/
theorem alertsAfter_eq (as : List α) :
    alertsAfter as = as.reverse.take 8 := by
  induction as using List.reverseRecOn with
  | nil => rfl
  | append_singleton l a ih =>
    unfold alertsAfter at ih ⊢
    rw [List.foldl_append, List.foldl_cons, List.foldl_nil, ih]
    show (a :: l.reverse.take 8).take 8 = (l ++ [a]).reverse.take 8
    rw [List.reverse_append, List.reverse_cons, List.reverse_nil, List.nil_append,
      List.singleton_append, List.take_succ_cons, List.take_succ_cons,
      List.take_take]
    norm_num

/-- C6: once more than 25 readings have been stored since start/reset, the
history is exactly the last 25 readings in chronological order (length 25);
once more than 8 anomalies have been raised with no intervening clear, the
alert list is exactly the 8 newest alerts, newest first (length 8). -/
theorem C6_bounded_containers :
    (∀ rs : List SensorEntry, 25 < rs.length →
      sensorDataAfter rs = rs.drop (rs.length - 25) ∧
      (sensorDataAfter rs).length = 25) ∧
    (∀ as : List Alert, 8 < as.length →
      alertsAfter as = as.reverse.take 8 ∧
      (alertsAfter as).length = 8) := by
  constructor
  · intro rs h
    refine ⟨sensorDataAfter_eq rs, ?_⟩
    rw [sensorDataAfter_eq]
    unfold jsSliceLast
    rw [List.length_drop]
    omega
  · intro as h
    refine ⟨alertsAfter_eq as, ?_⟩
    rw [alertsAfter_eq, List.length_take, List.length_reverse]
    omega

/-- A placeholder reading used to build concrete histories. -/
def dummyEntry : SensorEntry :=
  { time := "", raw := 0, filtered := 0, ph := 0, ec := 0, nitrogen := 0 }

/-- A placeholder alert used to build concrete alert lists. -/
def dummyAlert : Alert :=
  { id := 0, type := "", message := "", timestamp := "", parameter := "", value := 0 }

/-- Witness for C6 on a 26-entry history and a 9-entry alert list. -/
theorem C6_bounded_containers_witness :
    (25 < (List.replicate 26 dummyEntry).length ∧
      sensorDataAfter (List.replicate 26 dummyEntry) =
        (List.replicate 26 dummyEntry).drop ((List.replicate 26 dummyEntry).length - 25) ∧
      (sensorDataAfter (List.replicate 26 dummyEntry)).length = 25) ∧
    (8 < (List.replicate 9 dummyAlert).length ∧
      alertsAfter (List.replicate 9 dummyAlert) =
        (List.replicate 9 dummyAlert).reverse.take 8 ∧
      (alertsAfter (List.replicate 9 dummyAlert)).length = 8) :=
  ⟨⟨by simp, C6_bounded_containers.1 (List.replicate 26 dummyEntry) (by simp)⟩,
   ⟨by simp, C6_bounded_containers.2 (List.replicate 9 dummyAlert) (by simp)⟩⟩

/-- The filter run on the constant measurement stream 45 (the initial
estimate), tick by tick. -/
def constRun : ℕ → KalmanState
  | 0 => kalmanInit
  | n + 1 => kalmanFilter 45 (constRun n)

/-- A filter step on the measurement 45 from a state already estimating 45
with the nominal noise levels: the innovation is 0, the surprise score is 0,
so the process noise stays nominal and the estimate stays 45. -/
theorem kalman_const45_step (e i : ℚ) :
    kalmanFilter 45 ⟨45, e, 0.01, 0.5, i⟩ =
      ⟨45, (1 - (e + 0.01) / (e + 0.01 + 0.5)) * (e + 0.01), 0.01, 0.5, 0⟩ := by
  simp [kalmanFilter]
  norm_num

/-- Invariant of the constant-45 run: the estimate and both noise levels are
pinned, the error covariance is nonnegative and sits at or above the fixed
point of the covariance recursion (`e² + 0.01·e - 0.005 ≥ 0`). -/
theorem constRun_inv (n : ℕ) :
    (constRun n).estimate = 45 ∧
    (constRun n).processNoise = 0.01 ∧
    (constRun n).measurementNoise = 0.5 ∧
    0 ≤ (constRun n).errorCovariance ∧
    0 ≤ (constRun n).errorCovariance ^ 2 + 0.01 * (constRun n).errorCovariance - 0.005 := by
  induction n with
  | zero =>
    refine ⟨rfl, rfl, rfl, ?_, ?_⟩ <;> norm_num [constRun, kalmanInit]
  | succ n ih =>
    obtain ⟨h1, h2, h3, h4, h5⟩ := ih
    have hs : constRun n =
        ⟨45, (constRun n).errorCovariance, 0.01, 0.5, (constRun n).innovation⟩ := by
      cases hcr : constRun n
      simp_all
    set e := (constRun n).errorCovariance with he
    have hstep : constRun (n + 1) =
        ⟨45, (1 - (e + 0.01) / (e + 0.01 + 0.5)) * (e + 0.01), 0.01, 0.5, 0⟩ := by
      show kalmanFilter 45 (constRun n) = _
      rw [hs]
      exact kalman_const45_step e (constRun n).innovation
    rw [hstep]
    refine ⟨rfl, rfl, rfl, ?_, ?_⟩
    · have hd : (0 : ℚ) < e + 0.01 + 0.5 := by linarith
      have hfrac : (e + 0.01) / (e + 0.01 + 0.5) ≤ 1 := by
        rw [div_le_one hd]; linarith
      have := sub_nonneg.mpr hfrac
      have hp : (0 : ℚ) ≤ e + 0.01 := by linarith
      exact mul_nonneg this hp
    · have hd : (0 : ℚ) < e + 0.01 + 0.5 := by linarith
      set f := (1 - (e + 0.01) / (e + 0.01 + 0.5)) * (e + 0.01) with hf
      have hkey : f * (2 * (e + 0.01 + 0.5)) = e + 0.01 := by
        rw [hf]; field_simp; ring
      nlinarith [hkey, h5, hd, sq_nonneg (e + 0.01 + 0.5)]

/-- C9: feeding the constant measurement 45 (the initial estimate) at every
tick, the estimate stays at 45 at every tick and the error covariance never
increases (in particular over the first 50 ticks). -/
theorem C9_constant_stream_convergence (n : ℕ) :
    (constRun n).estimate = 45 ∧
    (constRun (n + 1)).errorCovariance ≤ (constRun n).errorCovariance := by
  obtain ⟨h1, h2, h3, h4, h5⟩ := constRun_inv n
  refine ⟨h1, ?_⟩
  have hs : constRun n =
      ⟨45, (constRun n).errorCovariance, 0.01, 0.5, (constRun n).innovation⟩ := by
    cases hcr : constRun n
    simp_all
  set e := (constRun n).errorCovariance with he
  have hstep : constRun (n + 1) =
      ⟨45, (1 - (e + 0.01) / (e + 0.01 + 0.5)) * (e + 0.01), 0.01, 0.5, 0⟩ := by
    show kalmanFilter 45 (constRun n) = _
    rw [hs]
    exact kalman_const45_step e (constRun n).innovation
  rw [hstep]
  show (1 - (e + 0.01) / (e + 0.01 + 0.5)) * (e + 0.01) ≤ e
  have hd : (0 : ℚ) < e + 0.01 + 0.5 := by linarith
  rw [← sub_nonneg]
  have hexp : e - (1 - (e + 0.01) / (e + 0.01 + 0.5)) * (e + 0.01) =
      (e ^ 2 + 0.01 * e - 0.005) / (e + 0.01 + 0.5) := by
    field_simp
    ring
  rw [hexp]
  positivity

end PrecisionAgri
